import Mathlib

/-!
# Verification of `nerfmirror.py` (yxlao/data-mirror)

A shallow embedding of the dataset-mirror downloader in `src/nerfmirror.py`.

* Files are byte lists (`List Nat`, each byte `< 256` in practice).
* `hashlib.sha256` is modelled by a full executable SHA-256 over the absorbed
  byte stream (`sha256Hex`); the incremental object of `Dataset.sha256sum`
  absorbs the 4096-byte chunks produced by the read loop (`sha256sumBytes`).
* The filesystem is a finite association list from paths (component lists)
  to nodes (file-with-content or directory).
* `Dataset.download_single_file` together with the context manager
  `_make_dir_or_temp_dir` is embedded as a state-passing function returning
  the outcome (`Except Err Unit`), the final filesystem, and a trace of the
  observable operations (cache check, checksum, fetch, extract, release).
-/

set_option autoImplicit false
set_option maxRecDepth 100000

namespace NerfMirror

/-! ## Byte chunking (models the `f.read(4096)` loop of `Dataset.sha256sum`) -/

/-- Chunking worker, structurally recursive on a fuel bound (any fuel of at
least the list length gives the chunk decomposition). -/
def chunksOfFuel (k : Nat) : Nat → List Nat → List (List Nat)
  | 0, _ => []
  | _ + 1, [] => []
  | fuel + 1, x :: xs => (x :: xs.take (k - 1)) :: chunksOfFuel k fuel (xs.drop (k - 1))

/-- Split a byte list into consecutive chunks of size `k` (the last chunk may
be shorter).  For `k = 4096` this models the sequence of non-empty results of
`f.read(4096)` in `Dataset.sha256sum`. -/
def chunksOf (k : Nat) (l : List Nat) : List (List Nat) :=
  chunksOfFuel k l.length l

/-- Concatenating the chunks gives back the original byte stream, for any
sufficient fuel. -/
theorem chunksOfFuel_flatten (k : Nat) :
    ∀ (fuel : Nat) (l : List Nat), l.length ≤ fuel →
      (chunksOfFuel k fuel l).flatten = l := by
  intro fuel
  induction fuel with
  | zero =>
      intro l hl
      cases l with
      | nil => simp [chunksOfFuel]
      | cons x xs => simp at hl
  | succ fuel ih =>
      intro l hl
      cases l with
      | nil => simp [chunksOfFuel]
      | cons x xs =>
          rw [chunksOfFuel]
          simp only [List.flatten_cons]
          rw [ih (xs.drop (k - 1))]
          · simp [List.take_append_drop]
          · simp only [List.length_drop]
            simp only [List.length_cons] at hl
            omega

/-- Concatenating the chunks gives back the original byte stream. -/
theorem chunksOf_flatten (k : Nat) (l : List Nat) : (chunksOf k l).flatten = l :=
  chunksOfFuel_flatten k l.length l (Nat.le_refl _)

/-- Folding list-append over a list of chunks, starting from `acc`,
appends the flattening of the chunks. -/
theorem foldl_append_eq_flatten (l : List (List Nat)) :
    ∀ acc : List Nat, l.foldl (fun a c => a ++ c) acc = acc ++ l.flatten := by
  induction l with
  | nil => intro acc; simp
  | cons c l ih => intro acc; simp [List.foldl_cons, ih, List.flatten_cons]

/-! ## SHA-256 (model of `hashlib.sha256`)

The hash state of a `hashlib.sha256()` object is semantically the byte
stream absorbed so far; `hexdigest()` is SHA-256 of that stream, rendered
as 64 lowercase hex characters.  We implement SHA-256 (FIPS 180-4)
executably over `Nat` with explicit `% 2^32` where overflow matters. -/

/-- `2^32`, the word modulus. -/
def M32 : Nat := 4294967296

/-- Right rotation of a 32-bit word. -/
def rotr32 (n x : Nat) : Nat := ((x >>> n) ||| (x <<< (32 - n))) % M32

/-- SHA-256 `Ch` function (bitwise choice). -/
def ch32 (x y z : Nat) : Nat := (x &&& y) ^^^ ((x ^^^ 4294967295) &&& z)

/-- SHA-256 `Maj` function (bitwise majority). -/
def maj32 (x y z : Nat) : Nat := (x &&& y) ^^^ (x &&& z) ^^^ (y &&& z)

/-- SHA-256 `Σ₀`. -/
def bigSigma0 (x : Nat) : Nat := rotr32 2 x ^^^ rotr32 13 x ^^^ rotr32 22 x

/-- SHA-256 `Σ₁`. -/
def bigSigma1 (x : Nat) : Nat := rotr32 6 x ^^^ rotr32 11 x ^^^ rotr32 25 x

/-- SHA-256 `σ₀`. -/
def smallSigma0 (x : Nat) : Nat := rotr32 7 x ^^^ rotr32 18 x ^^^ (x >>> 3)

/-- SHA-256 `σ₁`. -/
def smallSigma1 (x : Nat) : Nat := rotr32 17 x ^^^ rotr32 19 x ^^^ (x >>> 10)

/-- The 64 SHA-256 round constants (FIPS 180-4 §4.2.2, in decimal). -/
def K256 : List Nat :=
  [1116352408, 1899447441, 3049323471, 3921009573, 961987163, 1508970993,
   2453635748, 2870763221, 3624381080, 310598401, 607225278, 1426881987,
   1925078388, 2162078206, 2614888103, 3248222580, 3835390401, 4022224774,
   264347078, 604807628, 770255983, 1249150122, 1555081692, 1996064986,
   2554220882, 2821834349, 2952996808, 3210313671, 3336571891, 3584528711,
   113926993, 338241895, 666307205, 773529912, 1294757372, 1396182291,
   1695183700, 1986661051, 2177026350, 2456956037, 2730485921, 2820302411,
   3259730800, 3345764771, 3516065817, 3600352804, 4094571909, 275423344,
   430227734, 506948616, 659060556, 883997877, 958139571, 1322822218,
   1537002063, 1747873779, 1955562222, 2024104815, 2227730452, 2361852424,
   2428436474, 2756734187, 3204031479, 3329325298]

/-- The eight 32-bit working variables of the compression function. -/
structure Hash8 where
  a : Nat
  b : Nat
  c : Nat
  d : Nat
  e : Nat
  f : Nat
  g : Nat
  h : Nat

/-- Initial SHA-256 hash value (FIPS 180-4 §5.3.3, in decimal). -/
def initH : Hash8 :=
  ⟨1779033703, 3144134277, 1013904242, 2773480762,
   1359893119, 2600822924, 528734635, 1541459225⟩

/-- The eight bytes of a 64-bit big-endian length field. -/
def lenBytes64 (n : Nat) : List Nat :=
  [(n >>> 56) % 256, (n >>> 48) % 256, (n >>> 40) % 256, (n >>> 32) % 256,
   (n >>> 24) % 256, (n >>> 16) % 256, (n >>> 8) % 256, n % 256]

/-- SHA-256 padding: append `0x80`, zero bytes up to 56 mod 64, then the
bit length (8 × byte length) as 8 big-endian bytes. -/
def padMessage (msg : List Nat) : List Nat :=
  let len := msg.length
  let zeros := (64 + 55 - (len % 64)) % 64
  msg ++ 128 :: (List.replicate zeros 0 ++ lenBytes64 (8 * len))

/-- Group bytes into big-endian 32-bit words. -/
def bytesToWords : List Nat → List Nat
  | b0 :: b1 :: b2 :: b3 :: rest =>
      ((b0 <<< 24) + (b1 <<< 16) + (b2 <<< 8) + b3) :: bytesToWords rest
  | _ => []

/-- Message schedule: extend the 16 block words to 64 words. -/
def buildW (block : List Nat) : List Nat :=
  (List.range 64).foldl
    (fun w t =>
      if t < 16 then w ++ [block.getD t 0]
      else
        w ++ [(smallSigma1 (w.getD (t - 2) 0) + w.getD (t - 7) 0 +
               smallSigma0 (w.getD (t - 15) 0) + w.getD (t - 16) 0) % M32])
    []

/-- One SHA-256 round. -/
def roundStep (w : List Nat) (st : Hash8) (t : Nat) : Hash8 :=
  let t1 := (st.h + bigSigma1 st.e + ch32 st.e st.f st.g +
             K256.getD t 0 + w.getD t 0) % M32
  let t2 := (bigSigma0 st.a + maj32 st.a st.b st.c) % M32
  ⟨(t1 + t2) % M32, st.a, st.b, st.c, (st.d + t1) % M32, st.e, st.f, st.g⟩

/-- Compress one 512-bit block (given as 64 bytes) into the hash state. -/
def compress (st : Hash8) (blockBytes : List Nat) : Hash8 :=
  let w := buildW (bytesToWords blockBytes)
  let r := (List.range 64).foldl (roundStep w) st
  ⟨(st.a + r.a) % M32, (st.b + r.b) % M32, (st.c + r.c) % M32,
   (st.d + r.d) % M32, (st.e + r.e) % M32, (st.f + r.f) % M32,
   (st.g + r.g) % M32, (st.h + r.h) % M32⟩

/-- Lowercase hex digit for `n < 16`. -/
def hexDigitChar (n : Nat) : Char :=
  if n < 10 then Char.ofNat (48 + n) else Char.ofNat (87 + n)

/-- The 8 lowercase hex characters of a 32-bit word, most significant first. -/
def wordHexChars (x : Nat) : List Char :=
  [hexDigitChar ((x >>> 28) % 16), hexDigitChar ((x >>> 24) % 16),
   hexDigitChar ((x >>> 20) % 16), hexDigitChar ((x >>> 16) % 16),
   hexDigitChar ((x >>> 12) % 16), hexDigitChar ((x >>> 8) % 16),
   hexDigitChar ((x >>> 4) % 16), hexDigitChar (x % 16)]

/-- SHA-256 of a byte stream, rendered as the 64 lowercase hex characters
returned by `hexdigest()`. -/
def sha256Hex (msg : List Nat) : String :=
  let final := (chunksOf 64 (padMessage msg)).foldl compress initH
  String.mk (wordHexChars final.a ++ wordHexChars final.b ++
             wordHexChars final.c ++ wordHexChars final.d ++
             wordHexChars final.e ++ wordHexChars final.f ++
             wordHexChars final.g ++ wordHexChars final.h)

/-- Model of `Dataset.sha256sum`'s hashing loop on a file whose content is
`content`: the `hashlib.sha256()` object absorbs each chunk returned by
`f.read(4096)` in turn, and `hexdigest()` hashes the absorbed stream. -/
def sha256sumBytes (content : List Nat) : String :=
  let absorbed := (chunksOf 4096 content).foldl (fun acc chunk => acc ++ chunk) []
  sha256Hex absorbed

/-! ## Filesystem model

Paths are lists of components (the program resolves everything to absolute
paths; `Path.resolve()` is modelled as the identity on already-resolved
component lists).  The filesystem is a finite association list from paths to
nodes; lookup takes the first match. -/

/-- A resolved filesystem path, as a list of components. -/
abbrev FsPath := List String

/-- A filesystem node: a regular file with its byte content, or a directory. -/
inductive Node
  | file (content : List Nat)
  | dir
deriving DecidableEq

/-- A finite filesystem: association list from paths to nodes. -/
abbrev FS := List (FsPath × Node)

/-- `underDir root p` holds when `p` equals `root` or lies below it. -/
def underDir (root p : FsPath) : Bool := p.take root.length == root

/-- Look up the node stored at exactly `p`. -/
def FS.lookupNode (fs : FS) (p : FsPath) : Option Node :=
  (fs.find? (fun e => e.1 == p)).map (fun e => e.2)

/-- `Path.is_file()`: a regular file is stored at `p`. -/
def FS.isFile (fs : FS) (p : FsPath) : Bool :=
  match fs.lookupNode p with
  | some (Node.file _) => true
  | _ => false

/-- `Path.exists()`: an entry is stored at `p` or below it (directories that
exist only implicitly, because something lives inside them, count). -/
def FS.existsPath (fs : FS) (p : FsPath) : Bool :=
  fs.any (fun e => underDir p e.1)

/-- Create or overwrite the node at `p` (models file writes and `mkdir`). -/
def FS.setNode (fs : FS) (p : FsPath) (n : Node) : FS :=
  (p, n) :: fs.filter (fun e => e.1 != p)

/-- `shutil.rmtree`: remove everything at or below `root`. -/
def FS.rmtree (fs : FS) (root : FsPath) : FS :=
  fs.filter (fun e => !(underDir root e.1))

/-- Add a directory node at `q` unless something already exists there. -/
def FS.addDirAt (fs : FS) (q : FsPath) : FS :=
  if fs.existsPath q then fs else fs.setNode q Node.dir

/-- All ancestors of `p`, from the root `[]` up to `p` itself. -/
def ancestorsOf (p : FsPath) : List FsPath :=
  (List.range (p.length + 1)).map (fun k => p.take k)

/-- `Path.mkdir(exist_ok=True, parents=True)`: create `p` and all its
ancestors where absent. -/
def FS.mkdirParents (fs : FS) (p : FsPath) : FS :=
  (ancestorsOf p).foldl FS.addDirAt fs

/-- `Path.iterdir()`: the distinct names of immediate children of `p`
(the first component after `p` of every entry strictly below `p`). -/
def FS.childNames (fs : FS) (p : FsPath) : List String :=
  ((fs.filter (fun e => underDir p e.1 && decide (p.length < e.1.length))).map
    (fun e => e.1.getD p.length "")).dedup

/-! ## Strings, paths and Python values -/

/-- Render a resolved path (for error messages, models `str(path)`). -/
def pathStr (p : FsPath) : String := String.intercalate "/" p

/-- Split a character list at `/` separators (structural worker; `acc` holds
the current segment reversed). -/
def splitSlashAux : List Char → List Char → List String
  | [], acc => [String.mk acc.reverse]
  | c :: cs, acc =>
      if c = '/' then String.mk acc.reverse :: splitSlashAux cs []
      else splitSlashAux cs (c :: acc)

/-- Split a string at `/` separators (the behaviour of `s.split("/")`). -/
def splitSlash (s : String) : List String := splitSlashAux s.data []

/-- `Path(s)` on a user-supplied string: split into components. -/
def pathOfString (s : String) : FsPath := (splitSlash s).filter (fun c => c != "")

/-- `os.path.basename(urllib.parse.urlparse(url).path)` for the plain
`https://host/dir/file.zip` URLs of the registry (no query or fragment):
the part after the last slash. -/
def urlBasename (url : String) : String := (splitSlash url).getLastD ""

/-- A dynamically-typed Python argument that is either a `str` or not
(`isinstance(x, str)` distinguishes the two). -/
inductive PyStr
  | ofString (s : String)
  | nonString

/-- Python truthiness of the `cache_dir` argument (`None` and `""` are
falsy). -/
def pyTruthy : Option String → Bool
  | none => false
  | some s => s != ""

/-! ## Observable events and errors -/

/-- Observable operations of a `download_single_file` run, in order. -/
inductive Ev
  | evCacheCheck (p : FsPath)
  | evChecksum (p : FsPath)
  | evFetch (url : String)
  | evExtract (p : FsPath)
  | evReleaseTemp (p : FsPath)
  | evReleaseNoop
deriving DecidableEq

/-- Recognize a network fetch event. -/
def Ev.isFetch : Ev → Bool
  | evFetch _ => true
  | _ => false

/-- Recognize an extraction event. -/
def Ev.isExtract : Ev → Bool
  | evExtract _ => true
  | _ => false

/-- Recognize a cache-scope release event (temp deletion or no-op). -/
def Ev.isRelease : Ev → Bool
  | evReleaseTemp _ => true
  | evReleaseNoop => true
  | _ => false

/-- Recognize a cache-check event. -/
def Ev.isCacheCheck : Ev → Bool
  | evCacheCheck _ => true
  | _ => false

/-- Python exceptions raised by the pipeline. -/
inductive Err
  | valueError (msg : String)
  | fileNotFoundError (msg : String)
  | badZipFile
  | networkError
  | runtimeError
deriving DecidableEq

/-- The environment of one run: the URL and expected checksum passed in, what
the network would deliver (`none` = transport failure), and how a byte blob
unzips (`none` = `zipfile.BadZipFile`; entries are relative to the extraction
root). -/
structure Env where
  url : String
  sha256 : String
  fetchResult : Option (List Nat)
  unzip : List Nat → Option (List (FsPath × Node))

/-! ## Error messages (the f-strings of `nerfmirror.py`) -/

/-- Message of the `ValueError` in `_make_dir_or_temp_dir`. -/
def invalidCacheMsg (p : FsPath) : String :=
  "Cache dir " ++ pathStr p ++ " already exists and it is a file."

/-- Message of the checksum-mismatch `ValueError` after a download (the three
adjacent f-strings concatenate without separators). -/
def mismatchMsg (filePath : FsPath) (sha256 url : String) (cacheDir : FsPath) : String :=
  pathStr filePath ++ " checksum mismatch." ++ "Expected checksum " ++ sha256 ++ ". " ++
    "Please download " ++ url ++ " to " ++ pathStr cacheDir ++ " manually."

/-- Message of the missing-byproduct `FileNotFoundError`. -/
def byproductMsg (byDir : FsPath) : String :=
  "byproduct_dir " ++ pathStr byDir ++ " not found after extraction."

/-- Message of the `FileNotFoundError` in `Dataset.sha256sum`. -/
def notFoundMsg (p : FsPath) : String := pathStr p ++ " not found."

/-! ## `Dataset.sha256sum` -/

/-- `Dataset.sha256sum(file_path)`: raises `FileNotFoundError` unless a
regular file is stored at `p`; otherwise hashes the file's bytes through the
4096-byte read loop. -/
def sha256sumFs (fs : FS) (p : FsPath) : Except Err String :=
  match fs.lookupNode p with
  | some (Node.file content) => Except.ok (sha256sumBytes content)
  | _ => Except.error (Err.fileNotFoundError (notFoundMsg p))

/-! ## `_make_dir_or_temp_dir` -/

/-- The set-up half of `_make_dir_or_temp_dir` (everything before `yield`).
`tmp` is the fresh path `tempfile.mkdtemp()` would allocate.  Returns the
resolved cache directory, the `is_temp_dir` flag, and the updated
filesystem; the `ValueError` on a file-valued cache path is raised here,
before the `try` block, so no release happens in that case. -/
def acquireCacheDir (cacheDir : Option String) (tmp : FsPath) (fs : FS) :
    Except Err (FsPath × Bool × FS) :=
  if pyTruthy cacheDir then
    let p := pathOfString (cacheDir.getD "")
    if fs.isFile p then
      Except.error (Err.valueError (invalidCacheMsg p))
    else
      Except.ok (p, false, fs.mkdirParents p)
  else
    Except.ok (tmp, true, fs.setNode tmp Node.dir)

/-- The `finally` half of `_make_dir_or_temp_dir`: `shutil.rmtree` on the
temp directory, a no-op on a persistent one.  Runs on every exit path of the
protected block. -/
def releaseCacheDir (isTemp : Bool) (dir : FsPath) (fs : FS) : FS × Ev :=
  if isTemp then (fs.rmtree dir, Ev.evReleaseTemp dir) else (fs, Ev.evReleaseNoop)

/-! ## `Dataset.download_single_file` -/

/-- The cache check of lines 156–165: `sha256_valid` is true exactly when a
regular file sits at `filePath` and its digest equals the expected one. -/
def cacheValid (fs : FS) (filePath : FsPath) (sha : String) : Bool :=
  match fs.lookupNode filePath with
  | some (Node.file c) => sha256sumBytes c == sha
  | _ => false

/-- Lines 179–203: open and extract the archive into `downloadDir`, check the
byproduct directory, delete `deleteName` when present, and list the byproduct
directory (an empty `iterdir()` makes `_lookahead` raise `StopIteration`
inside a generator, which Python converts to `RuntimeError`). -/
def extractPhase (env : Env) (byproductName : String) (deleteName : Option String)
    (downloadDir filePath : FsPath) (fs : FS) (tr : List Ev) :
    Except Err Unit × FS × List Ev :=
  match fs.lookupNode filePath with
  | some (Node.file content) =>
    match env.unzip content with
    | none => (Except.error Err.badZipFile, fs, tr)
    | some entries =>
      let fs1 := entries.foldl (fun a e => FS.setNode a (downloadDir ++ e.1) e.2) fs
      let tr1 := tr ++ [Ev.evExtract filePath]
      let byDir := downloadDir ++ [byproductName]
      if fs1.existsPath byDir then
        let fs2 :=
          match deleteName with
          | some d =>
            let deleteDir := downloadDir ++ [d]
            if fs1.existsPath deleteDir then fs1.rmtree deleteDir else fs1
          | none => fs1
        ((if (fs2.childNames byDir).isEmpty then Except.error Err.runtimeError
          else Except.ok ()), fs2, tr1)
      else
        (Except.error (Err.fileNotFoundError (byproductMsg byDir)), fs1, tr1)
  | _ => (Except.error (Err.fileNotFoundError (notFoundMsg filePath)), fs, tr)

/-- The body of the `with` block of `Dataset.download_single_file`
(lines 143–203), with `cacheDir` already resolved: type-check the byproduct
argument, check the cache, download and re-hash when needed, then extract. -/
def downloadBody (env : Env) (byproductDirName : PyStr) (deleteDirName : Option String)
    (downloadDir cacheDir : FsPath) (fs : FS) :
    Except Err Unit × FS × List Ev :=
  match byproductDirName with
  | PyStr.nonString =>
      (Except.error (Err.valueError "byproduct_dir_name must be a string."), fs, [])
  | PyStr.ofString byproductName =>
    let filePath := cacheDir ++ [urlBasename env.url]
    let hit := cacheValid fs filePath env.sha256
    let tr1 := Ev.evCacheCheck filePath ::
      (if fs.isFile filePath then [Ev.evChecksum filePath] else [])
    if hit then
      extractPhase env byproductName deleteDirName downloadDir filePath fs tr1
    else
      match env.fetchResult with
      | none => (Except.error Err.networkError, fs, tr1 ++ [Ev.evFetch env.url])
      | some content =>
        let fs1 := fs.setNode filePath (Node.file content)
        let tr2 := tr1 ++ [Ev.evFetch env.url, Ev.evChecksum filePath]
        if sha256sumBytes content == env.sha256 then
          extractPhase env byproductName deleteDirName downloadDir filePath fs1 tr2
        else
          (Except.error (Err.valueError (mismatchMsg filePath env.sha256 env.url cacheDir)),
           fs1, tr2)

/-- `Dataset.download_single_file` in full: acquire the cache scope, run the
body, and release the scope on every exit path of the body (the `finally` of
`_make_dir_or_temp_dir`).  `tmp` is the path `tempfile.mkdtemp()` would
return were an ephemeral directory needed. -/
def download_single_file (env : Env) (byproductDirName : PyStr)
    (deleteDirName : Option String) (downloadDir : FsPath)
    (cacheDir : Option String) (tmp : FsPath) (fs : FS) :
    Except Err Unit × FS × List Ev :=
  match acquireCacheDir cacheDir tmp fs with
  | Except.error e => (Except.error e, fs, [])
  | Except.ok (dir, isTemp, fs0) =>
    let r := downloadBody env byproductDirName deleteDirName downloadDir dir fs0
    let rel := releaseCacheDir isTemp dir r.2.1
    (r.1, rel.1, r.2.2 ++ [rel.2])

/-! ## The registered datasets -/

/-- The data of one registered dataset (the arguments its `download` method
passes to `Dataset.download_single_file`). -/
structure DatasetSpec where
  url : String
  sha256 : String
  byproductDirName : String
  deleteDirName : Option String

/-- `NeRFSynthetic.download`'s arguments. -/
def nerfSynthetic : DatasetSpec :=
  { url := "https://github.com/yxlao/nerfmirror/releases/download/20220618/nerf_synthetic.zip"
    sha256 := "f01fd1b4ab045b0d453917346f26f898657bb5bec4834b95fdad1f361826e45e"
    byproductDirName := "nerf_synthetic"
    deleteDirName := some "__MACOSX" }

/-- `NeRFLLFF.download`'s arguments. -/
def nerfLLFF : DatasetSpec :=
  { url := "https://github.com/yxlao/nerfmirror/releases/download/20220618/nerf_llff_data.zip"
    sha256 := "5794b432feaf4f25bcd603addc6ad0270cec588fed6a364b7952001f07466635"
    byproductDirName := "nerf_llff_data"
    deleteDirName := none }

/-- The `_dataset_registry` populated by the two `@RegisterDataset`
decorators. -/
def datasetRegistry : List (String × DatasetSpec) :=
  [("nerf_synthetic", nerfSynthetic), ("nerf_llff", nerfLLFF)]

/-! ## Helper lemmas -/

/-- `rmtree root` leaves nothing at or below `root`. -/
theorem rmtree_existsPath (fs : FS) (root : FsPath) :
    (fs.rmtree root).existsPath root = false := by
  rw [FS.existsPath, FS.rmtree]
  induction fs with
  | nil => rfl
  | cons e fs ih =>
      cases h : underDir root e.1
      · simp [List.filter_cons, h, ih]
      · simp [List.filter_cons, h, ih]

/-- The hashing loop over 4096-byte chunks computes the hash of the whole
byte content in one pass. -/
theorem sha256sumBytes_eq_sha256Hex (content : List Nat) :
    sha256sumBytes content = sha256Hex content := by
  rw [sha256sumBytes]
  rw [foldl_append_eq_flatten, chunksOf_flatten]
  rfl

/-- Every SHA-256 hex digest has exactly 64 characters. -/
theorem sha256Hex_length (msg : List Nat) : (sha256Hex msg).length = 64 := by
  simp [sha256Hex, wordHexChars, String.length]

/-- `extractPhase` only appends (possibly) one `evExtract` event to the
incoming trace: any event predicate that ignores `evExtract` counts the
same before and after. -/
theorem extractPhase_countP (env : Env) (byproductName : String)
    (deleteName : Option String) (downloadDir filePath : FsPath) (fs : FS)
    (tr : List Ev) (q : Ev → Bool) (hq : ∀ p, q (Ev.evExtract p) = false) :
    ((extractPhase env byproductName deleteName downloadDir filePath fs tr).2.2).countP q =
      tr.countP q := by
  cases hn : fs.lookupNode filePath with
  | none => simp [extractPhase, hn]
  | some node =>
      cases node with
      | dir => simp [extractPhase, hn]
      | file content =>
          cases hz : env.unzip content with
          | none => simp [extractPhase, hn, hz]
          | some entries =>
              simp only [extractPhase, hn, hz]
              split <;> simp [List.countP_append, List.countP_cons, hq]

/-- The body of the `with` block never emits a release event. -/
theorem downloadBody_countP_isRelease (env : Env) (byproductDirName : PyStr)
    (deleteDirName : Option String) (downloadDir cacheDir : FsPath) (fs : FS) :
    ((downloadBody env byproductDirName deleteDirName downloadDir cacheDir fs).2.2).countP
      Ev.isRelease = 0 := by
  cases byproductDirName with
  | nonString => simp [downloadBody]
  | ofString byproductName =>
      simp only [downloadBody]
      split
      · rw [extractPhase_countP _ _ _ _ _ _ _ _ (fun p => rfl)]
        split <;> rfl
      · cases hf : env.fetchResult with
        | none =>
            simp only [hf]
            split <;> rfl
        | some content =>
            simp only [hf]
            split
            · rw [extractPhase_countP _ _ _ _ _ _ _ _ (fun p => rfl)]
              split <;> rfl
            · split <;> rfl

/-- String append is associative (on the underlying character lists). -/
theorem strAppend_assoc (a b c : String) : a ++ b ++ c = a ++ (b ++ c) := by
  cases a with | mk da =>
  cases b with | mk db =>
  cases c with | mk dc =>
  show String.mk (da ++ db ++ dc) = String.mk (da ++ (db ++ dc))
  rw [List.append_assoc]

/-- `setNode` never makes an existing path disappear. -/
theorem existsPath_setNode_mono (fs : FS) (q r : FsPath) (n : Node)
    (h : fs.existsPath q = true) : (fs.setNode r n).existsPath q = true := by
  rw [FS.existsPath, List.any_eq_true] at h ⊢
  obtain ⟨e, he, hu⟩ := h
  by_cases hr : e.1 = r
  · refine ⟨(r, n), List.mem_cons_self _ _, ?_⟩
    rw [← hr]
    exact hu
  · refine ⟨e, List.mem_cons_of_mem _ ?_, hu⟩
    rw [List.mem_filter]
    exact ⟨he, by simp [hr]⟩

/-- `addDirAt` never makes an existing path disappear. -/
theorem existsPath_addDirAt_mono (fs : FS) (q r : FsPath)
    (h : fs.existsPath q = true) : (fs.addDirAt r).existsPath q = true := by
  rw [FS.addDirAt]
  split
  · exact h
  · exact existsPath_setNode_mono fs q r Node.dir h

/-- After `addDirAt q`, the path `q` exists. -/
theorem existsPath_addDirAt_self (fs : FS) (q : FsPath) :
    (fs.addDirAt q).existsPath q = true := by
  rw [FS.addDirAt]
  split
  · assumption
  · simp [FS.setNode, FS.existsPath, underDir, List.take_length]

/-- Folding `addDirAt` preserves existing paths. -/
theorem existsPath_foldl_addDirAt_mono (l : List FsPath) (fs : FS) (q : FsPath)
    (h : fs.existsPath q = true) : (l.foldl FS.addDirAt fs).existsPath q = true := by
  induction l generalizing fs with
  | nil => exact h
  | cons a l ih => exact ih _ (existsPath_addDirAt_mono fs q a h)

/-- Folding `addDirAt` over a list of paths makes every listed path exist. -/
theorem existsPath_foldl_addDirAt_mem :
    ∀ (l : List FsPath) (fs : FS) (q : FsPath), q ∈ l →
      (l.foldl FS.addDirAt fs).existsPath q = true := by
  intro l
  induction l with
  | nil =>
      intro fs q h
      cases h
  | cons a l ih =>
      intro fs q h
      cases h with
      | head => exact existsPath_foldl_addDirAt_mono l _ a (existsPath_addDirAt_self fs a)
      | tail _ h => exact ih _ q h

/-- `mkdir(parents=True)` makes the directory and all its ancestors exist. -/
theorem mkdirParents_existsPath (fs : FS) (p q : FsPath) (h : q ∈ ancestorsOf p) :
    (fs.mkdirParents p).existsPath q = true :=
  existsPath_foldl_addDirAt_mem _ fs q h

/-- A run with a falsy `cache_dir` (`None` or `""`) allocates the fresh temp
directory, runs the body there, and finally deletes the whole temp tree. -/
theorem ephemeral_run_eq (env : Env) (byproductDirName : PyStr)
    (deleteDirName : Option String) (downloadDir : FsPath)
    (cacheDir : Option String) (tmp : FsPath) (fs : FS)
    (h : pyTruthy cacheDir = false) :
    download_single_file env byproductDirName deleteDirName downloadDir cacheDir tmp fs =
      ((downloadBody env byproductDirName deleteDirName downloadDir tmp
          (fs.setNode tmp Node.dir)).1,
       (downloadBody env byproductDirName deleteDirName downloadDir tmp
          (fs.setNode tmp Node.dir)).2.1.rmtree tmp,
       (downloadBody env byproductDirName deleteDirName downloadDir tmp
          (fs.setNode tmp Node.dir)).2.2 ++ [Ev.evReleaseTemp tmp]) := by
  rw [download_single_file, acquireCacheDir, h]
  rfl

/-- A persistent run (truthy `cache_dir` naming something that is not a
regular file) creates the cache directory, runs the body there, and the
release is a no-op: the final filesystem is exactly the body's. -/
theorem persistent_run_eq (env : Env) (byproductDirName : PyStr)
    (deleteDirName : Option String) (downloadDir : FsPath)
    (cacheDir : Option String) (tmp : FsPath) (fs : FS)
    (htruthy : pyTruthy cacheDir = true)
    (hnotfile : fs.isFile (pathOfString (cacheDir.getD "")) = false) :
    download_single_file env byproductDirName deleteDirName downloadDir cacheDir tmp fs =
      ((downloadBody env byproductDirName deleteDirName downloadDir
          (pathOfString (cacheDir.getD ""))
          (fs.mkdirParents (pathOfString (cacheDir.getD "")))).1,
       (downloadBody env byproductDirName deleteDirName downloadDir
          (pathOfString (cacheDir.getD ""))
          (fs.mkdirParents (pathOfString (cacheDir.getD "")))).2.1,
       (downloadBody env byproductDirName deleteDirName downloadDir
          (pathOfString (cacheDir.getD ""))
          (fs.mkdirParents (pathOfString (cacheDir.getD "")))).2.2 ++
         [Ev.evReleaseNoop]) := by
  rw [download_single_file, acquireCacheDir, htruthy]
  simp only [if_true, hnotfile, Bool.false_eq_true, if_false]
  rfl

/-- A truthy `cache_dir` naming an existing regular file makes the run fail
immediately in `_make_dir_or_temp_dir`, before the `try` block: filesystem
untouched, empty trace. -/
theorem invalid_cache_run_eq (env : Env) (byproductDirName : PyStr)
    (deleteDirName : Option String) (downloadDir : FsPath) (cacheDir : Option String)
    (tmp : FsPath) (fs : FS)
    (htruthy : pyTruthy cacheDir = true)
    (hfile : fs.isFile (pathOfString (cacheDir.getD "")) = true) :
    download_single_file env byproductDirName deleteDirName downloadDir cacheDir tmp fs =
      (Except.error (Err.valueError (invalidCacheMsg (pathOfString (cacheDir.getD "")))),
       fs, []) := by
  rw [download_single_file, acquireCacheDir, htruthy]
  simp only [if_true, hfile]

/-- On a valid cache hit the body goes straight to extraction: its trace
contains no fetch event. -/
theorem downloadBody_hit_countP_isFetch (env : Env) (byproductName : String)
    (deleteDirName : Option String) (downloadDir cacheDir : FsPath) (fs : FS)
    (hhit : cacheValid fs (cacheDir ++ [urlBasename env.url]) env.sha256 = true) :
    ((downloadBody env (PyStr.ofString byproductName) deleteDirName downloadDir cacheDir
        fs).2.2).countP Ev.isFetch = 0 := by
  simp only [downloadBody, hhit, if_true]
  rw [extractPhase_countP _ _ _ _ _ _ _ _ (fun p => rfl)]
  split <;> rfl

/-- On a cache miss whose re-downloaded content still mismatches, the body
raises the checksum-mismatch `ValueError`, leaves the fetched bytes in the
cache file, and its trace is the cache check, then exactly one fetch
followed by one checksum recomputation. -/
theorem downloadBody_miss_mismatch (env : Env) (byproductName : String)
    (deleteDirName : Option String) (downloadDir cacheDir : FsPath) (fs : FS)
    (content : List Nat)
    (hmiss : cacheValid fs (cacheDir ++ [urlBasename env.url]) env.sha256 = false)
    (hfetch : env.fetchResult = some content)
    (hsha : (sha256sumBytes content == env.sha256) = false) :
    downloadBody env (PyStr.ofString byproductName) deleteDirName downloadDir cacheDir fs =
      (Except.error (Err.valueError (mismatchMsg (cacheDir ++ [urlBasename env.url])
          env.sha256 env.url cacheDir)),
       fs.setNode (cacheDir ++ [urlBasename env.url]) (Node.file content),
       (Ev.evCacheCheck (cacheDir ++ [urlBasename env.url]) ::
         (if fs.isFile (cacheDir ++ [urlBasename env.url]) then
            [Ev.evChecksum (cacheDir ++ [urlBasename env.url])] else [])) ++
         [Ev.evFetch env.url, Ev.evChecksum (cacheDir ++ [urlBasename env.url])]) := by
  simp only [downloadBody, hmiss, hfetch, hsha, Bool.false_eq_true, if_false]

/-- When the archive opens and extracts but the byproduct directory is
absent afterwards, `extractPhase` fails with the missing-byproduct
`FileNotFoundError`. -/
theorem extractPhase_missing (env : Env) (byproductName : String)
    (deleteName : Option String) (downloadDir filePath : FsPath) (fs : FS)
    (tr : List Ev) (content : List Nat) (entries : List (FsPath × Node))
    (hlook : fs.lookupNode filePath = some (Node.file content))
    (hunzip : env.unzip content = some entries)
    (hmissing : (entries.foldl (fun a e => FS.setNode a (downloadDir ++ e.1) e.2)
        fs).existsPath (downloadDir ++ [byproductName]) = false) :
    (extractPhase env byproductName deleteName downloadDir filePath fs tr).1 =
      Except.error (Err.fileNotFoundError (byproductMsg (downloadDir ++ [byproductName]))) := by
  simp only [extractPhase, hlook, hunzip, hmissing, Bool.false_eq_true, if_false]

/-! ## The claims -/

/-- C2: with no cache directory supplied, the ephemeral temporary cache
directory does not exist on disk after `materialize` returns — on the
success path and on every failure path (the statement quantifies over every
environment, so over every outcome) — and the release runs exactly once per
acquisition. -/
theorem ephemeral_cache_dir_removed_release_once (env : Env)
    (byproductDirName : PyStr) (deleteDirName : Option String)
    (downloadDir tmp : FsPath) (fs : FS) :
    (download_single_file env byproductDirName deleteDirName downloadDir none tmp
        fs).2.1.existsPath tmp = false ∧
    ((download_single_file env byproductDirName deleteDirName downloadDir none tmp
        fs).2.2).countP Ev.isRelease = 1 := by
  rw [ephemeral_run_eq env byproductDirName deleteDirName downloadDir none tmp fs rfl]
  constructor
  · exact rmtree_existsPath _ tmp
  · simp [List.countP_append, downloadBody_countP_isRelease, List.countP_cons, Ev.isRelease]

/-- C9: a supplied but empty-string `cache_dir` is falsy in Python, so the
run is identical to one with no cache directory: an ephemeral temporary
directory is allocated, used, and fully deleted on scope exit. -/
theorem empty_cache_dir_treated_as_none (env : Env) (byproductDirName : PyStr)
    (deleteDirName : Option String) (downloadDir tmp : FsPath) (fs : FS) :
    download_single_file env byproductDirName deleteDirName downloadDir (some "") tmp fs =
      download_single_file env byproductDirName deleteDirName downloadDir none tmp fs ∧
    (download_single_file env byproductDirName deleteDirName downloadDir (some "") tmp
        fs).2.1.existsPath tmp = false ∧
    (download_single_file env byproductDirName deleteDirName downloadDir (some "") tmp
        fs).2.2 =
      (downloadBody env byproductDirName deleteDirName downloadDir tmp
          (fs.setNode tmp Node.dir)).2.2 ++ [Ev.evReleaseTemp tmp] := by
  refine ⟨rfl, ?_, ?_⟩
  · rw [ephemeral_run_eq env byproductDirName deleteDirName downloadDir (some "") tmp fs rfl]
    exact rmtree_existsPath _ tmp
  · rw [ephemeral_run_eq env byproductDirName deleteDirName downloadDir (some "") tmp fs rfl]

/-- C4: when the supplied `cache_dir` exists as a regular file,
`materialize` fails with the invalid-path `ValueError` before anything else
happens: the filesystem is untouched and the trace is empty, so in
particular no network call was made. -/
theorem cache_path_file_fails_before_network (env : Env) (byproductDirName : PyStr)
    (deleteDirName : Option String) (downloadDir : FsPath) (cacheDir : Option String)
    (tmp : FsPath) (fs : FS)
    (htruthy : pyTruthy cacheDir = true)
    (hfile : fs.isFile (pathOfString (cacheDir.getD "")) = true) :
    download_single_file env byproductDirName deleteDirName downloadDir cacheDir tmp fs =
      (Except.error (Err.valueError (invalidCacheMsg (pathOfString (cacheDir.getD "")))),
       fs, []) :=
  invalid_cache_run_eq env byproductDirName deleteDirName downloadDir cacheDir tmp fs
    htruthy hfile

/-- C10: a non-string `byproduct_dir_name` makes the run fail with a
`ValueError` before any cache check, fetch, or extraction, and an ephemeral
cache directory allocated for the run is still removed before the error
propagates. -/
theorem non_string_byproduct_fails_before_cache_check (env : Env)
    (deleteDirName : Option String) (downloadDir : FsPath) (cacheDir : Option String)
    (tmp : FsPath) (fs : FS) :
    (∃ m, (download_single_file env PyStr.nonString deleteDirName downloadDir cacheDir
        tmp fs).1 = Except.error (Err.valueError m)) ∧
    ((download_single_file env PyStr.nonString deleteDirName downloadDir cacheDir tmp
        fs).2.2).countP Ev.isCacheCheck = 0 ∧
    ((download_single_file env PyStr.nonString deleteDirName downloadDir cacheDir tmp
        fs).2.2).countP Ev.isFetch = 0 ∧
    ((download_single_file env PyStr.nonString deleteDirName downloadDir cacheDir tmp
        fs).2.2).countP Ev.isExtract = 0 ∧
    (pyTruthy cacheDir = false →
      (download_single_file env PyStr.nonString deleteDirName downloadDir cacheDir tmp
          fs).2.1.existsPath tmp = false) := by
  cases htruthy : pyTruthy cacheDir with
  | false =>
      rw [ephemeral_run_eq env PyStr.nonString deleteDirName downloadDir cacheDir tmp
        fs htruthy]
      exact ⟨⟨"byproduct_dir_name must be a string.", rfl⟩, rfl, rfl, rfl,
        fun _ => rmtree_existsPath _ tmp⟩
  | true =>
      cases hfile : fs.isFile (pathOfString (cacheDir.getD "")) with
      | true =>
          rw [invalid_cache_run_eq env PyStr.nonString deleteDirName
            downloadDir cacheDir tmp fs htruthy hfile]
          refine ⟨⟨invalidCacheMsg (pathOfString (cacheDir.getD "")), rfl⟩, rfl, rfl, rfl, ?_⟩
          intro hfalse
          exact Bool.noConfusion hfalse
      | false =>
          rw [persistent_run_eq env PyStr.nonString deleteDirName downloadDir cacheDir
            tmp fs htruthy hfile]
          refine ⟨⟨"byproduct_dir_name must be a string.", rfl⟩, rfl, rfl, rfl, ?_⟩
          intro hfalse
          exact Bool.noConfusion hfalse

/-- C3: when the acquired cache directory already holds the archive and its
digest equals the expected checksum, the run performs zero network fetches
(cache-hit idempotence). -/
theorem cache_hit_no_fetch (env : Env) (byproductName : String)
    (deleteDirName : Option String) (downloadDir : FsPath) (cacheDir : Option String)
    (tmp dir : FsPath) (isTemp : Bool) (fs fs0 : FS)
    (hacq : acquireCacheDir cacheDir tmp fs = Except.ok (dir, isTemp, fs0))
    (hhit : cacheValid fs0 (dir ++ [urlBasename env.url]) env.sha256 = true) :
    ((download_single_file env (PyStr.ofString byproductName) deleteDirName downloadDir
        cacheDir tmp fs).2.2).countP Ev.isFetch = 0 := by
  simp only [download_single_file, hacq]
  rw [List.countP_append]
  rw [downloadBody_hit_countP_isFetch env byproductName deleteDirName downloadDir dir
    fs0 hhit]
  cases isTemp <;> simp [releaseCacheDir, List.countP_cons, Ev.isFetch]

/-- C1: when the cache file is absent or its digest mismatches, the run
performs exactly one fetch followed by a digest recomputation; if the
re-fetched content still mismatches, it fails with the checksum-mismatch
`ValueError` whose message includes the expected digest, the URL and the
cache path, and no extraction is performed. -/
theorem checksum_mismatch_after_single_refetch (env : Env) (byproductName : String)
    (deleteDirName : Option String) (downloadDir : FsPath) (cacheDir : Option String)
    (tmp dir : FsPath) (isTemp : Bool) (fs fs0 : FS) (content : List Nat)
    (hacq : acquireCacheDir cacheDir tmp fs = Except.ok (dir, isTemp, fs0))
    (hmiss : cacheValid fs0 (dir ++ [urlBasename env.url]) env.sha256 = false)
    (hfetch : env.fetchResult = some content)
    (hsha : (sha256sumBytes content == env.sha256) = false) :
    (download_single_file env (PyStr.ofString byproductName) deleteDirName downloadDir
        cacheDir tmp fs).1 =
      Except.error (Err.valueError (mismatchMsg (dir ++ [urlBasename env.url])
        env.sha256 env.url dir)) ∧
    ((download_single_file env (PyStr.ofString byproductName) deleteDirName downloadDir
        cacheDir tmp fs).2.2).countP Ev.isFetch = 1 ∧
    ((download_single_file env (PyStr.ofString byproductName) deleteDirName downloadDir
        cacheDir tmp fs).2.2).countP Ev.isExtract = 0 ∧
    (∃ pre rest, (download_single_file env (PyStr.ofString byproductName) deleteDirName
        downloadDir cacheDir tmp fs).2.2 =
      pre ++ Ev.evFetch env.url :: Ev.evChecksum (dir ++ [urlBasename env.url]) :: rest) ∧
    (∃ a b, mismatchMsg (dir ++ [urlBasename env.url]) env.sha256 env.url dir =
      a ++ (env.sha256 ++ b)) ∧
    (∃ a b, mismatchMsg (dir ++ [urlBasename env.url]) env.sha256 env.url dir =
      a ++ (env.url ++ b)) ∧
    (∃ a b, mismatchMsg (dir ++ [urlBasename env.url]) env.sha256 env.url dir =
      a ++ (pathStr dir ++ b)) := by
  have hbody := downloadBody_miss_mismatch env byproductName deleteDirName downloadDir
    dir fs0 content hmiss hfetch hsha
  simp only [download_single_file, hacq, hbody]
  refine ⟨trivial, ?_, ?_, ?_, ?_, ?_, ?_⟩
  · cases hf : fs0.isFile (dir ++ [urlBasename env.url]) <;> cases isTemp <;>
      simp [releaseCacheDir, List.countP_append, List.countP_cons, Ev.isFetch]
  · cases hf : fs0.isFile (dir ++ [urlBasename env.url]) <;> cases isTemp <;>
      simp [releaseCacheDir, List.countP_append, List.countP_cons, Ev.isExtract]
  · refine ⟨Ev.evCacheCheck (dir ++ [urlBasename env.url]) ::
      (if fs0.isFile (dir ++ [urlBasename env.url]) then
        [Ev.evChecksum (dir ++ [urlBasename env.url])] else []),
      [(releaseCacheDir isTemp dir (fs0.setNode (dir ++ [urlBasename env.url])
        (Node.file content))).2], ?_⟩
    simp [List.append_assoc]
  · exact ⟨pathStr (dir ++ [urlBasename env.url]) ++ " checksum mismatch." ++
      "Expected checksum ",
      ". " ++ "Please download " ++ env.url ++ " to " ++ pathStr dir ++ " manually.",
      by simp [mismatchMsg, strAppend_assoc]⟩
  · exact ⟨pathStr (dir ++ [urlBasename env.url]) ++ " checksum mismatch." ++
      "Expected checksum " ++ env.sha256 ++ ". " ++ "Please download ",
      " to " ++ pathStr dir ++ " manually.",
      by simp [mismatchMsg, strAppend_assoc]⟩
  · exact ⟨pathStr (dir ++ [urlBasename env.url]) ++ " checksum mismatch." ++
      "Expected checksum " ++ env.sha256 ++ ". " ++ "Please download " ++ env.url ++
      " to ", " manually.",
      by simp [mismatchMsg, strAppend_assoc]⟩

/-- C5: for every archive that opens and extracts successfully (on either
the cache-hit route or the download route) but whose extraction does not
produce the descriptor's byproduct path under `download_dir`, the run fails
with the missing-byproduct `FileNotFoundError`. -/
theorem missing_byproduct_fails (env : Env) (byproductName : String)
    (deleteDirName : Option String) (downloadDir : FsPath) (cacheDir : Option String)
    (tmp dir : FsPath) (isTemp : Bool) (fs fs0 stagedFs : FS) (content : List Nat)
    (entries : List (FsPath × Node))
    (hacq : acquireCacheDir cacheDir tmp fs = Except.ok (dir, isTemp, fs0))
    (hroute :
      (cacheValid fs0 (dir ++ [urlBasename env.url]) env.sha256 = true ∧
        stagedFs = fs0) ∨
      (cacheValid fs0 (dir ++ [urlBasename env.url]) env.sha256 = false ∧
        env.fetchResult = some content ∧
        (sha256sumBytes content == env.sha256) = true ∧
        stagedFs = fs0.setNode (dir ++ [urlBasename env.url]) (Node.file content)))
    (hlook : stagedFs.lookupNode (dir ++ [urlBasename env.url]) =
      some (Node.file content))
    (hunzip : env.unzip content = some entries)
    (hmissing : (entries.foldl (fun a e => FS.setNode a (downloadDir ++ e.1) e.2)
        stagedFs).existsPath (downloadDir ++ [byproductName]) = false) :
    (download_single_file env (PyStr.ofString byproductName) deleteDirName downloadDir
        cacheDir tmp fs).1 =
      Except.error (Err.fileNotFoundError (byproductMsg (downloadDir ++ [byproductName]))) := by
  simp only [download_single_file, hacq]
  cases hroute with
  | inl h =>
      obtain ⟨hhit, hstaged⟩ := h
      subst hstaged
      simp only [downloadBody, hhit, if_true]
      exact extractPhase_missing env byproductName deleteDirName downloadDir _ _ _
        content entries hlook hunzip hmissing
  | inr h =>
      obtain ⟨hmiss, hfetch, hsha, hstaged⟩ := h
      subst hstaged
      simp only [downloadBody, hmiss, hfetch, hsha, Bool.false_eq_true, if_false, if_true]
      exact extractPhase_missing env byproductName deleteDirName downloadDir _ _ _
        content entries hlook hunzip hmissing

/-- C8: a supplied cache path that is not an existing regular file is
created (with its ancestors) on acquisition, is treated as persistent, and
its release is a no-op: the final filesystem is exactly the one the body
produced (nothing is deleted on release), and the release event is the
no-op one. -/
theorem persistent_cache_release_noop (env : Env) (byproductDirName : PyStr)
    (deleteDirName : Option String) (downloadDir : FsPath) (cacheDir : Option String)
    (tmp : FsPath) (fs : FS)
    (htruthy : pyTruthy cacheDir = true)
    (hnotfile : fs.isFile (pathOfString (cacheDir.getD "")) = false) :
    (∀ q ∈ ancestorsOf (pathOfString (cacheDir.getD "")),
        (fs.mkdirParents (pathOfString (cacheDir.getD ""))).existsPath q = true) ∧
    download_single_file env byproductDirName deleteDirName downloadDir cacheDir tmp fs =
      ((downloadBody env byproductDirName deleteDirName downloadDir
          (pathOfString (cacheDir.getD ""))
          (fs.mkdirParents (pathOfString (cacheDir.getD "")))).1,
       (downloadBody env byproductDirName deleteDirName downloadDir
          (pathOfString (cacheDir.getD ""))
          (fs.mkdirParents (pathOfString (cacheDir.getD "")))).2.1,
       (downloadBody env byproductDirName deleteDirName downloadDir
          (pathOfString (cacheDir.getD ""))
          (fs.mkdirParents (pathOfString (cacheDir.getD "")))).2.2 ++
         [Ev.evReleaseNoop]) :=
  ⟨fun q hq => mkdirParents_existsPath fs _ q hq,
   persistent_run_eq env byproductDirName deleteDirName downloadDir cacheDir tmp fs
     htruthy hnotfile⟩

/-- C6: `sha256sum` fails with `FileNotFoundError` when the path is not a
regular file; on a regular file it returns the 64-hex-character SHA-256 of
the file's full byte stream, and the incremental 4096-byte-chunk
computation it performs equals hashing the whole content in one pass. -/
theorem sha256sum_contract (fs : FS) (p : FsPath) :
    (FS.isFile fs p = false →
      sha256sumFs fs p = Except.error (Err.fileNotFoundError (notFoundMsg p))) ∧
    (∀ content, fs.lookupNode p = some (Node.file content) →
      sha256sumFs fs p = Except.ok (sha256Hex content) ∧
      sha256sumFs fs p = Except.ok (sha256sumBytes content) ∧
      (sha256Hex content).length = 64) := by
  constructor
  · intro h
    cases hn : fs.lookupNode p with
    | none => simp [sha256sumFs, hn]
    | some node =>
        cases node with
        | file c => simp [FS.isFile, hn] at h
        | dir => simp [sha256sumFs, hn]
  · intro content hc
    refine ⟨?_, ?_, sha256Hex_length content⟩
    · simp [sha256sumFs, hc, sha256sumBytes_eq_sha256Hex]
    · simp [sha256sumFs, hc]

/-- C7, counterexample: no registered dataset descriptor has an expected
checksum constant of 65 characters — both in-source constants have the
standard 64. -/
theorem no_registered_checksum_has_length_65 :
    (datasetRegistry.all (fun d => d.2.sha256.length != 65)) = true ∧
    nerfSynthetic.sha256.length = 64 ∧ nerfLLFF.sha256.length = 64 := by
  decide

/-- C7, amended: every registered dataset descriptor's expected checksum
constant has exactly the standard 64 hex characters of a 256-bit digest. -/
theorem all_registered_checksums_length_64 :
    (datasetRegistry.all (fun d => d.2.sha256.length == 64)) = true := by
  decide

/-! ## Concrete witnesses -/

/-- C4 witness: a run against a cache path occupied by a regular file. -/
theorem cache_path_file_fails_before_network_witness :
    download_single_file ⟨"https://host/dl/f.zip", "aa", none, fun _ => none⟩
        (PyStr.ofString "b") none ["data"] (some "cache") ["tmp"]
        [(["cache"], Node.file [5])] =
      (Except.error (Err.valueError
          (invalidCacheMsg (pathOfString ((some "cache" : Option String).getD "")))),
       [(["cache"], Node.file [5])], []) :=
  cache_path_file_fails_before_network ⟨"https://host/dl/f.zip", "aa", none, fun _ => none⟩
    (PyStr.ofString "b") none ["data"] (some "cache") ["tmp"]
    [(["cache"], Node.file [5])] (by decide) (by decide)

/-- C3 witness: a persistent cache that already holds the archive with a
matching digest; the run performs no fetch. -/
theorem cache_hit_no_fetch_witness :
    ((download_single_file
        ⟨"https://host/dl/f.zip",
         "6e340b9cffb37a989ca544e6bb780a2c78901d3fb33738768511a30617afa01d",
         none, fun _ => none⟩
        (PyStr.ofString "b") none ["data"] (some "cache") ["tmp"]
        [(["cache", "f.zip"], Node.file [0])]).2.2).countP Ev.isFetch = 0 :=
  cache_hit_no_fetch
    ⟨"https://host/dl/f.zip",
     "6e340b9cffb37a989ca544e6bb780a2c78901d3fb33738768511a30617afa01d",
     none, fun _ => none⟩
    "b" none ["data"] (some "cache") ["tmp"]
    (pathOfString ((some "cache" : Option String).getD "")) false
    [(["cache", "f.zip"], Node.file [0])]
    (FS.mkdirParents [(["cache", "f.zip"], Node.file [0])]
      (pathOfString ((some "cache" : Option String).getD "")))
    (by rfl) (by decide)

/-- C1 witness: an empty ephemeral cache, a remote that delivers mismatching
bytes: one fetch, the checksum-mismatch error, no extraction. -/
theorem checksum_mismatch_after_single_refetch_witness :
    (download_single_file ⟨"https://host/dl/f.zip", "aa", some [1], fun _ => none⟩
        (PyStr.ofString "b") none ["data"] none ["tmp"] []).1 =
      Except.error (Err.valueError (mismatchMsg (["tmp"] ++
        [urlBasename "https://host/dl/f.zip"]) "aa" "https://host/dl/f.zip" ["tmp"])) ∧
    ((download_single_file ⟨"https://host/dl/f.zip", "aa", some [1], fun _ => none⟩
        (PyStr.ofString "b") none ["data"] none ["tmp"] []).2.2).countP Ev.isFetch = 1 ∧
    ((download_single_file ⟨"https://host/dl/f.zip", "aa", some [1], fun _ => none⟩
        (PyStr.ofString "b") none ["data"] none ["tmp"] []).2.2).countP Ev.isExtract = 0 :=
  ⟨(checksum_mismatch_after_single_refetch
      ⟨"https://host/dl/f.zip", "aa", some [1], fun _ => none⟩ "b" none ["data"] none
      ["tmp"] ["tmp"] true [] (FS.setNode [] ["tmp"] Node.dir) [1]
      (by rfl) (by decide) (by rfl) (by decide)).1,
   (checksum_mismatch_after_single_refetch
      ⟨"https://host/dl/f.zip", "aa", some [1], fun _ => none⟩ "b" none ["data"] none
      ["tmp"] ["tmp"] true [] (FS.setNode [] ["tmp"] Node.dir) [1]
      (by rfl) (by decide) (by rfl) (by decide)).2.1,
   (checksum_mismatch_after_single_refetch
      ⟨"https://host/dl/f.zip", "aa", some [1], fun _ => none⟩ "b" none ["data"] none
      ["tmp"] ["tmp"] true [] (FS.setNode [] ["tmp"] Node.dir) [1]
      (by rfl) (by decide) (by rfl) (by decide)).2.2.1⟩

/-- C5 witness: a valid cached archive whose extraction yields only `other`,
not the expected byproduct `b`. -/
theorem missing_byproduct_fails_witness :
    (download_single_file
        ⟨"https://host/dl/f.zip",
         "6e340b9cffb37a989ca544e6bb780a2c78901d3fb33738768511a30617afa01d",
         none, fun c => if c == [0] then some [(["other"], Node.dir)] else none⟩
        (PyStr.ofString "b") none ["data"] (some "cache") ["tmp"]
        [(["cache", "f.zip"], Node.file [0])]).1 =
      Except.error (Err.fileNotFoundError (byproductMsg (["data"] ++ ["b"]))) :=
  missing_byproduct_fails
    ⟨"https://host/dl/f.zip",
     "6e340b9cffb37a989ca544e6bb780a2c78901d3fb33738768511a30617afa01d",
     none, fun c => if c == [0] then some [(["other"], Node.dir)] else none⟩
    "b" none ["data"] (some "cache") ["tmp"]
    (pathOfString ((some "cache" : Option String).getD "")) false
    [(["cache", "f.zip"], Node.file [0])]
    (FS.mkdirParents [(["cache", "f.zip"], Node.file [0])]
      (pathOfString ((some "cache" : Option String).getD "")))
    (FS.mkdirParents [(["cache", "f.zip"], Node.file [0])]
      (pathOfString ((some "cache" : Option String).getD "")))
    [0] [(["other"], Node.dir)]
    (by rfl) (Or.inl ⟨by decide, rfl⟩) (by decide) (by rfl) (by decide)

/-- C8 witness: a persistent cache path `cache` over an empty filesystem
with a failing network: the cache directory is created, survives the run,
and the release is the no-op event. -/
theorem persistent_cache_release_noop_witness :
    download_single_file ⟨"https://host/dl/f.zip", "aa", none, fun _ => none⟩
        (PyStr.ofString "b") none ["data"] (some "cache") ["tmp"] [] =
      (Except.error Err.networkError,
       [(["cache"], Node.dir), ([], Node.dir)],
       [Ev.evCacheCheck ["cache", "f.zip"], Ev.evFetch "https://host/dl/f.zip",
        Ev.evReleaseNoop]) ∧
    (FS.mkdirParents []
        (pathOfString ((some "cache" : Option String).getD ""))).existsPath
      (pathOfString ((some "cache" : Option String).getD "")) = true :=
  ⟨((persistent_cache_release_noop
      ⟨"https://host/dl/f.zip", "aa", none, fun _ => none⟩ (PyStr.ofString "b") none
      ["data"] (some "cache") ["tmp"] [] (by decide) (by decide)).2).trans (by rfl),
   (persistent_cache_release_noop
      ⟨"https://host/dl/f.zip", "aa", none, fun _ => none⟩ (PyStr.ofString "b") none
      ["data"] (some "cache") ["tmp"] [] (by decide) (by decide)).1
     (pathOfString ((some "cache" : Option String).getD "")) (by decide)⟩

/-- C6 witness: the digest contract evaluated on a one-file filesystem. -/
theorem sha256sum_contract_witness :
    sha256sumFs [(["f"], Node.file [0])] ["g"] =
      Except.error (Err.fileNotFoundError (notFoundMsg ["g"])) ∧
    (sha256sumFs [(["f"], Node.file [0])] ["f"] = Except.ok (sha256Hex [0]) ∧
     sha256sumFs [(["f"], Node.file [0])] ["f"] = Except.ok (sha256sumBytes [0]) ∧
     (sha256Hex [0]).length = 64) :=
  ⟨(sha256sum_contract [(["f"], Node.file [0])] ["g"]).1 (by decide),
   (sha256sum_contract [(["f"], Node.file [0])] ["f"]).2 [0] (by decide)⟩

/-- C10 witness: a non-string byproduct argument on an ephemeral run. -/
theorem non_string_byproduct_fails_before_cache_check_witness :
    ((download_single_file ⟨"https://host/dl/f.zip", "aa", none, fun _ => none⟩
        PyStr.nonString none ["data"] none ["tmp"] []).2.2).countP Ev.isCacheCheck = 0 ∧
    ((download_single_file ⟨"https://host/dl/f.zip", "aa", none, fun _ => none⟩
        PyStr.nonString none ["data"] none ["tmp"] []).2.2).countP Ev.isFetch = 0 ∧
    ((download_single_file ⟨"https://host/dl/f.zip", "aa", none, fun _ => none⟩
        PyStr.nonString none ["data"] none ["tmp"] []).2.2).countP Ev.isExtract = 0 ∧
    (download_single_file ⟨"https://host/dl/f.zip", "aa", none, fun _ => none⟩
        PyStr.nonString none ["data"] none ["tmp"] []).2.1.existsPath ["tmp"] = false :=
  ⟨(non_string_byproduct_fails_before_cache_check
      ⟨"https://host/dl/f.zip", "aa", none, fun _ => none⟩ none ["data"] none ["tmp"]
      []).2.1,
   (non_string_byproduct_fails_before_cache_check
      ⟨"https://host/dl/f.zip", "aa", none, fun _ => none⟩ none ["data"] none ["tmp"]
      []).2.2.1,
   (non_string_byproduct_fails_before_cache_check
      ⟨"https://host/dl/f.zip", "aa", none, fun _ => none⟩ none ["data"] none ["tmp"]
      []).2.2.2.1,
   (non_string_byproduct_fails_before_cache_check
      ⟨"https://host/dl/f.zip", "aa", none, fun _ => none⟩ none ["data"] none ["tmp"]
      []).2.2.2.2 rfl⟩

end NerfMirror
